import Mathlib

/-!
Shallow embedding of the account-lifecycle core of the BANKAPP backend
(`app/services/account_service.py`, `app/schemas/account_schema.py`,
`app/models/account_model.py`).

The persistent store is a list of committed `Account` rows.  Each service
function is a pure function from the committed store (plus its inputs) to
an `OpResult`: the returned value or raised exception, the committed store
after the call, and the trace of session operations the function performed
(`add`, `commit`, `rollback`, `refresh`).  A `storeFails` flag models the
store raising `IntegrityError` at the commit; when the commit fails the
committed store is unchanged (transaction atomicity of the store).

Currency amounts are exact two-decimal fixed-point values, embedded as
integer cents (so 25.00 is 2500).
-/

/-- Mirrors the `Account` SQLAlchemy model: id, user_id, account_type,
balance (integer cents), nickname, status. -/
structure Account where
  id : Nat
  user_id : Nat
  account_type : String
  balance : Int
  nickname : Option String
  status : String
deriving Repr, DecidableEq

/-- The committed rows of the `accounts` table. -/
abbrev DB := List Account

/-- Python exceptions the service raises or lets escape:
`ValueError msg`, `HTTPException(status_code, detail)`, and the raw
`sqlalchemy.exc.IntegrityError` when it is not caught. -/
inductive Err where
  | valueError (msg : String)
  | httpException (statusCode : Nat) (detail : String)
  | integrityError
deriving Repr, DecidableEq

/-- Session-level operations performed against the store handle. -/
inductive SessionOp where
  | add
  | commit
  | rollback
  | refresh
deriving Repr, DecidableEq

/-- Outcome of one service call: returned value or exception, the
committed store afterwards, and the session operations performed. -/
structure OpResult (α : Type) where
  result : Except Err α
  db : DB
  trace : List SessionOp
deriving Repr

instance {ε α : Type} [DecidableEq ε] [DecidableEq α] : DecidableEq (Except ε α) := fun x y =>
  match x, y with
  | .error e₁, .error e₂ => decidable_of_iff (e₁ = e₂) (by simp)
  | .error _, .ok _ => .isFalse (by simp)
  | .ok _, .error _ => .isFalse (by simp)
  | .ok a₁, .ok a₂ => decidable_of_iff (a₁ = a₂) (by simp)

instance {α : Type} [DecidableEq α] : DecidableEq (OpResult α) := fun x y =>
  decidable_of_iff (x.result = y.result ∧ x.db = y.db ∧ x.trace = y.trace)
    (by cases x; cases y; simp)

/-- Mirrors the pydantic `AccountCreate` schema.  The service receives
`account_type` as a string and lower-cases it itself. -/
structure AccountCreate where
  account_type : String
  nickname : Option String
  initial_deposit : Int
deriving Repr, DecidableEq

/-- Mirrors the pydantic `AccountUpdate` schema: both fields optional, a
missing field and an explicit null both arrive as `None`. -/
structure AccountUpdate where
  nickname : Option String
  status : Option String
deriving Repr, DecidableEq

/-- Mirrors the `MINIMUM_DEPOSITS` dict: checking 25.00, savings 100.00,
as integer cents; lookup fails for any other key. -/
def MINIMUM_DEPOSITS (t : String) : Option Int :=
  if t = "checking" then some 2500
  else if t = "savings" then some 10000
  else none

/-- Renders integer cents the way the f-string `$ {m:.2f}` does, for the
minimum-deposit error message (only used with nonnegative amounts). -/
def centsToString (c : Int) : String :=
  let rem := c % 100
  toString (c / 100) ++ "." ++ (if rem < 10 then "0" ++ toString rem else toString rem)

/-- Mirrors the Python string method `.lower()` as used on account types:
lower-cases every character. -/
def pyLower (s : String) : String := ⟨s.data.map Char.toLower⟩

/-- The row filter used by every owner-scoped query:
`Account.id == account_id, Account.user_id == user_id`. -/
def ownedBy (user_id account_id : Nat) (acc : Account) : Bool :=
  acc.id == account_id && acc.user_id == user_id

/-- Replaces the first row matching `p` with `b`; models the in-place ORM
mutation of the row returned by `.first()` made durable by `commit`. -/
def replaceFirst (db : DB) (p : Account → Bool) (b : Account) : DB :=
  match db with
  | [] => []
  | a :: rest => if p a then b :: rest else a :: replaceFirst rest p b

/-- Mirrors `create_account`: lower-case the type, check it against
`MINIMUM_DEPOSITS`, check the minimum deposit, build the row with
`status = "active"` and `balance = initial_deposit`, then add and commit;
an `IntegrityError` at the commit is rolled back and re-raised as
`HTTPException(400, "Account could not be created.")`.  `newId` is the
identifier the store assigns to the inserted row. -/
def create_account (db : DB) (user_id : Nat) (data : AccountCreate)
    (newId : Nat) (storeFails : Bool) : OpResult Account :=
  let account_type := pyLower data.account_type
  match MINIMUM_DEPOSITS account_type with
  | none =>
      ⟨.error (.valueError "Invalid account type. Must be 'checking' or 'savings'."), db, []⟩
  | some min_required =>
      if data.initial_deposit < min_required then
        ⟨.error (.valueError ("Minimum deposit for " ++ account_type ++ " account is $"
            ++ centsToString min_required ++ ".")), db, []⟩
      else
        let account : Account :=
          ⟨newId, user_id, account_type, data.initial_deposit, data.nickname, "active"⟩
        if storeFails then
          ⟨.error (.httpException 400 "Account could not be created."), db,
            [.add, .commit, .rollback]⟩
        else
          ⟨.ok account, db ++ [account], [.add, .commit, .refresh]⟩

/-- Mirrors `get_user_accounts`: all rows of this owner whose status is
not "closed". -/
def get_user_accounts (db : DB) (user_id : Nat) : List Account :=
  db.filter (fun acc => acc.user_id == user_id && acc.status != "closed")

/-- Mirrors `get_account_by_id`: the first row matching id and owner, or
`HTTPException(404, "Account not found.")`. -/
def get_account_by_id (db : DB) (user_id account_id : Nat) : Except Err Account :=
  match db.find? (ownedBy user_id account_id) with
  | none => .error (.httpException 404 "Account not found.")
  | some account => .ok account

/-- Mirrors `update_account`: load the row scoped by owner (404 if
absent), overwrite nickname when supplied, validate and overwrite status
when supplied (`HTTPException(400, "Invalid status.")` otherwise), then
commit; there is no exception handler around the commit, so a store
failure there escapes as the raw `IntegrityError` with no rollback. -/
def update_account (db : DB) (user_id account_id : Nat) (data : AccountUpdate)
    (storeFails : Bool) : OpResult Account :=
  match db.find? (ownedBy user_id account_id) with
  | none => ⟨.error (.httpException 404 "Account not found."), db, []⟩
  | some account =>
      let account := match data.nickname with
        | some n => { account with nickname := some n }
        | none => account
      match data.status with
      | some s =>
          if s = "active" ∨ s = "frozen" ∨ s = "closed" then
            let account := { account with status := s }
            if storeFails then
              ⟨.error .integrityError, db, [.commit]⟩
            else
              ⟨.ok account, replaceFirst db (ownedBy user_id account_id) account,
                [.commit, .refresh]⟩
          else
            ⟨.error (.httpException 400 "Invalid status."), db, []⟩
      | none =>
          if storeFails then
            ⟨.error .integrityError, db, [.commit]⟩
          else
            ⟨.ok account, replaceFirst db (ownedBy user_id account_id) account,
              [.commit, .refresh]⟩

/-- Mirrors `delete_account` (the soft delete): load the row scoped by
owner (404 if absent), set `status = "closed"`, commit; no exception
handler around the commit. -/
def delete_account (db : DB) (user_id account_id : Nat)
    (storeFails : Bool) : OpResult Unit :=
  match db.find? (ownedBy user_id account_id) with
  | none => ⟨.error (.httpException 404 "Account not found."), db, []⟩
  | some account =>
      let account := { account with status := "closed" }
      if storeFails then
        ⟨.error .integrityError, db, [.commit]⟩
      else
        ⟨.ok (), replaceFirst db (ownedBy user_id account_id) account, [.commit]⟩

/-! Helper lemmas about the row-replacement operation. -/

theorem ownedBy_eq_true_iff (u a : Nat) (acc : Account) :
    ownedBy u a acc = true ↔ acc.id = a ∧ acc.user_id = u := by
  simp [ownedBy]

theorem length_replaceFirst (p : Account → Bool) (b : Account) :
    ∀ db : DB, (replaceFirst db p b).length = db.length := by
  intro db
  induction db with
  | nil => rfl
  | cons a rest ih =>
      by_cases h : p a <;> simp [replaceFirst, h, ih]

theorem map_replaceFirst {β : Type} (f : Account → β) (p : Account → Bool) (b acc : Account) :
    ∀ db : DB, db.find? p = some acc → f b = f acc →
      (replaceFirst db p b).map f = db.map f := by
  intro db
  induction db with
  | nil => intro h; simp at h
  | cons a rest ih =>
      intro hfind hfb
      by_cases h : p a
      · rw [List.find?_cons_of_pos _ h] at hfind
        injection hfind with hacc
        subst hacc
        simp [replaceFirst, h, hfb]
      · rw [List.find?_cons_of_neg _ h] at hfind
        simp [replaceFirst, h, ih hfind hfb]

theorem mem_replaceFirst (p : Account → Bool) (b x : Account) :
    ∀ db : DB, x ∈ replaceFirst db p b → x ∈ db ∨ x = b := by
  intro db
  induction db with
  | nil => intro h; simp [replaceFirst] at h
  | cons a rest ih =>
      intro hx
      by_cases h : p a
      · simp [replaceFirst, h] at hx
        rcases hx with hx | hx
        · right; exact hx
        · left; simp [hx]
      · simp [replaceFirst, h] at hx
        rcases hx with hx | hx
        · left; simp [hx]
        · rcases ih hx with h' | h'
          · left; simp [h']
          · right; exact h'

theorem find?_replaceFirst (p : Account → Bool) (b acc : Account) (hb : p b = true) :
    ∀ db : DB, db.find? p = some acc →
      (replaceFirst db p b).find? p = some b := by
  intro db
  induction db with
  | nil => intro h; simp at h
  | cons a rest ih =>
      intro hfind
      by_cases h : p a
      · simp [replaceFirst, h, List.find?_cons_of_pos _ hb]
      · rw [List.find?_cons_of_neg _ h] at hfind
        simp [replaceFirst, h, List.find?_cons_of_neg _ h, ih hfind]

theorem replaceFirst_self (p : Account → Bool) (acc : Account) :
    ∀ db : DB, db.find? p = some acc → replaceFirst db p acc = db := by
  intro db
  induction db with
  | nil => intro h; simp at h
  | cons a rest ih =>
      intro hfind
      by_cases h : p a
      · rw [List.find?_cons_of_pos _ h] at hfind
        injection hfind with hacc
        subst hacc
        simp [replaceFirst, h]
      · rw [List.find?_cons_of_neg _ h] at hfind
        simp [replaceFirst, h, ih hfind]

theorem replaceFirst_replaceFirst (p : Account → Bool) (b : Account) (hb : p b = true) :
    ∀ db : DB, replaceFirst (replaceFirst db p b) p b = replaceFirst db p b := by
  intro db
  induction db with
  | nil => rfl
  | cons a rest ih =>
      by_cases h : p a
      · simp [replaceFirst, h, hb]
      · simp [replaceFirst, h, ih]

/-- C1: for account types checking and savings, createAccount fails with
InvalidArgument (a ValueError) exactly when the initial deposit is below
the per-type minimum (25.00 for checking, 100.00 for savings, in cents),
succeeds at the minimum exactly and above it, and any non-positive
deposit is below the minimum and hence rejected. -/
theorem createAccount_minimum_deposit (db : DB) (u : Nat) (nn : Option String)
    (newId : Nat) (t : String) (d : Int)
    (ht : t = "checking" ∨ t = "savings") :
    (d ≤ 0 → d < (MINIMUM_DEPOSITS t).getD 0) ∧
    (d < (MINIMUM_DEPOSITS t).getD 0 →
      ∃ msg, create_account db u ⟨t, nn, d⟩ newId false =
        ⟨.error (.valueError msg), db, []⟩) ∧
    ((MINIMUM_DEPOSITS t).getD 0 ≤ d →
      create_account db u ⟨t, nn, d⟩ newId false =
        ⟨.ok ⟨newId, u, t, d, nn, "active"⟩, db ++ [⟨newId, u, t, d, nn, "active"⟩],
          [.add, .commit, .refresh]⟩) := by
  rcases ht with ht | ht <;> subst ht
  · have hM : MINIMUM_DEPOSITS (pyLower "checking") = some 2500 := by decide
    have hG : (MINIMUM_DEPOSITS "checking").getD 0 = 2500 := by decide
    refine ⟨?_, ?_, ?_⟩
    · intro h; rw [hG]; omega
    · intro hlt
      rw [hG] at hlt
      exact ⟨_, by simp only [create_account, hM, if_pos hlt]; rfl⟩
    · intro hge
      rw [hG] at hge
      simp only [create_account, hM, if_neg (not_lt.mpr hge)]
      rfl
  · have hM : MINIMUM_DEPOSITS (pyLower "savings") = some 10000 := by decide
    have hG : (MINIMUM_DEPOSITS "savings").getD 0 = 10000 := by decide
    refine ⟨?_, ?_, ?_⟩
    · intro h; rw [hG]; omega
    · intro hlt
      rw [hG] at hlt
      exact ⟨_, by simp only [create_account, hM, if_pos hlt]; rfl⟩
    · intro hge
      rw [hG] at hge
      simp only [create_account, hM, if_neg (not_lt.mpr hge)]
      rfl

/-- Witness for C1: a savings account created with exactly the 100.00
minimum succeeds. -/
theorem createAccount_minimum_deposit_witness :
    create_account [] 1 ⟨"savings", none, 10000⟩ 7 false =
      ⟨.ok ⟨7, 1, "savings", 10000, none, "active"⟩,
        [⟨7, 1, "savings", 10000, none, "active"⟩], [.add, .commit, .refresh]⟩ :=
  (createAccount_minimum_deposit [] 1 none 7 "savings" 10000 (Or.inr rfl)).2.2 (by decide)

/-- C4: every successful createAccount call persists an account with
status active and balance equal to the initial deposit, owned by the
caller, appended to the store; no input can choose another status or
balance. -/
theorem createAccount_forces_active_balance (db : DB) (u : Nat) (data : AccountCreate)
    (newId : Nat) (sf : Bool) (acc : Account)
    (h : (create_account db u data newId sf).result = .ok acc) :
    acc.status = "active" ∧ acc.balance = data.initial_deposit ∧ acc.user_id = u ∧
    (create_account db u data newId sf).db = db ++ [acc] := by
  cases sf
  · rcases hM : MINIMUM_DEPOSITS (pyLower data.account_type) with _ | m
    · simp [create_account, hM] at h
    · by_cases hd : data.initial_deposit < m
      · simp [create_account, hM, hd] at h
      · simp [create_account, hM, hd] at h ⊢
        subst h
        simp
  · rcases hM : MINIMUM_DEPOSITS (pyLower data.account_type) with _ | m
    · simp [create_account, hM] at h
    · by_cases hd : data.initial_deposit < m
      · simp [create_account, hM, hd] at h
      · simp [create_account, hM, hd] at h

/-- Witness for C4: a concrete successful creation starts active with the
deposited balance. -/
theorem createAccount_forces_active_balance_witness :
    (⟨7, 1, "checking", 2500, none, "active"⟩ : Account).status = "active" ∧
    (⟨7, 1, "checking", 2500, none, "active"⟩ : Account).balance = (2500 : Int) ∧
    (⟨7, 1, "checking", 2500, none, "active"⟩ : Account).user_id = 1 ∧
    (create_account [] 1 ⟨"checking", none, 2500⟩ 7 false).db =
      [] ++ [⟨7, 1, "checking", 2500, none, "active"⟩] :=
  createAccount_forces_active_balance [] 1 ⟨"checking", none, 2500⟩ 7 false
    ⟨7, 1, "checking", 2500, none, "active"⟩ (by decide)

/-- C7: an account type whose lower-cased form is neither checking nor
savings makes createAccount fail with InvalidArgument (a ValueError),
with no session operation performed and the store unchanged. -/
theorem createAccount_invalid_type (db : DB) (u : Nat) (nn : Option String) (d : Int)
    (newId : Nat) (sf : Bool) (t : String)
    (h1 : pyLower t ≠ "checking") (h2 : pyLower t ≠ "savings") :
    create_account db u ⟨t, nn, d⟩ newId sf =
      ⟨.error (.valueError "Invalid account type. Must be 'checking' or 'savings'."), db, []⟩ := by
  have hM : MINIMUM_DEPOSITS (pyLower t) = none := by
    simp [MINIMUM_DEPOSITS, h1, h2]
  simp [create_account, hM]

/-- Witness for C7: creating a business account fails before any storage
interaction. -/
theorem createAccount_invalid_type_witness :
    create_account [] 1 ⟨"business", none, 99999⟩ 3 false =
      ⟨.error (.valueError "Invalid account type. Must be 'checking' or 'savings'."), [], []⟩ :=
  createAccount_invalid_type [] 1 none 99999 3 false "business" (by decide) (by decide)

/-- C2: when every stored row with the requested id belongs to a
different owner (in particular when no such row exists at all),
getAccount, updateAccount and closeAccount all return the one fixed
NotFound error, leave the store unchanged and perform no session
operation; the error value does not depend on which of the two cases
holds, so they are indistinguishable to the caller. -/
theorem crossOwner_access_not_found (db : DB) (u a : Nat)
    (h : ∀ acc ∈ db, acc.id = a → acc.user_id ≠ u) :
    get_account_by_id db u a = .error (.httpException 404 "Account not found.") ∧
    (∀ data sf, update_account db u a data sf =
      ⟨.error (.httpException 404 "Account not found."), db, []⟩) ∧
    (∀ sf, delete_account db u a sf =
      ⟨.error (.httpException 404 "Account not found."), db, []⟩) := by
  have hfind : db.find? (ownedBy u a) = none := by
    rw [List.find?_eq_none]
    intro acc hacc
    simp only [ownedBy, Bool.and_eq_true, beq_iff_eq, not_and]
    intro hid
    exact h acc hacc hid
  refine ⟨?_, ?_, ?_⟩
  · simp [get_account_by_id, hfind]
  · intro data sf; simp [update_account, hfind]
  · intro sf; simp [delete_account, hfind]

/-- Witness for C2: a caller with id 1 probing account id 1 owned by user
2 gets the same NotFound on all three operations. -/
theorem crossOwner_access_not_found_witness :
    get_account_by_id [⟨1, 2, "checking", 2500, none, "active"⟩] 1 1 =
      .error (.httpException 404 "Account not found.") ∧
    update_account [⟨1, 2, "checking", 2500, none, "active"⟩] 1 1 ⟨none, none⟩ false =
      ⟨.error (.httpException 404 "Account not found."),
        [⟨1, 2, "checking", 2500, none, "active"⟩], []⟩ ∧
    delete_account [⟨1, 2, "checking", 2500, none, "active"⟩] 1 1 false =
      ⟨.error (.httpException 404 "Account not found."),
        [⟨1, 2, "checking", 2500, none, "active"⟩], []⟩ :=
  ⟨(crossOwner_access_not_found [⟨1, 2, "checking", 2500, none, "active"⟩] 1 1 (by decide)).1,
   (crossOwner_access_not_found [⟨1, 2, "checking", 2500, none, "active"⟩] 1 1
      (by decide)).2.1 ⟨none, none⟩ false,
   (crossOwner_access_not_found [⟨1, 2, "checking", 2500, none, "active"⟩] 1 1
      (by decide)).2.2 false⟩

/-- C3: listAccounts returns exactly the rows of this owner whose status
is not closed, and an owner with no such rows gets the empty list (the
function is total, so no error is ever raised). -/
theorem listAccounts_spec (db : DB) (u : Nat) :
    (∀ acc : Account, acc ∈ get_user_accounts db u ↔
      acc ∈ db ∧ acc.user_id = u ∧ acc.status ≠ "closed") ∧
    ((∀ acc ∈ db, acc.user_id = u → acc.status = "closed") →
      get_user_accounts db u = []) := by
  constructor
  · intro acc
    simp [get_user_accounts, List.mem_filter, and_assoc]
  · intro h
    rw [get_user_accounts, List.filter_eq_nil_iff]
    intro acc hacc
    simp only [Bool.and_eq_true, beq_iff_eq, bne_iff_ne, not_and]
    intro hu
    simp [h acc hacc hu]

/-- Witness for C3: with one active, one closed and one foreign row, the
listing for owner 1 is characterised row by row, and an owner whose only
row is closed gets the empty list. -/
theorem listAccounts_spec_witness :
    ((⟨2, 1, "savings", 10000, none, "closed"⟩ : Account) ∈
      get_user_accounts [⟨1, 1, "checking", 2500, none, "active"⟩,
        ⟨2, 1, "savings", 10000, none, "closed"⟩,
        ⟨3, 2, "checking", 2500, none, "active"⟩] 1 ↔
      (⟨2, 1, "savings", 10000, none, "closed"⟩ : Account) ∈
        [⟨1, 1, "checking", 2500, none, "active"⟩,
          ⟨2, 1, "savings", 10000, none, "closed"⟩,
          ⟨3, 2, "checking", 2500, none, "active"⟩] ∧
      (⟨2, 1, "savings", 10000, none, "closed"⟩ : Account).user_id = 1 ∧
      (⟨2, 1, "savings", 10000, none, "closed"⟩ : Account).status ≠ "closed") ∧
    get_user_accounts [⟨9, 3, "checking", 2500, none, "closed"⟩] 3 = [] :=
  ⟨(listAccounts_spec [⟨1, 1, "checking", 2500, none, "active"⟩,
      ⟨2, 1, "savings", 10000, none, "closed"⟩,
      ⟨3, 2, "checking", 2500, none, "active"⟩] 1).1 _,
   (listAccounts_spec [⟨9, 3, "checking", 2500, none, "closed"⟩] 3).2 (by decide)⟩

/-- C5: closeAccount is an idempotent soft delete: on an owned account it
succeeds, keeps every row (same ids and owners, nothing removed), a
second call succeeds and leaves the store exactly as after the first, and
a subsequent getAccount by the owner still returns the record, now with
status closed. -/
theorem closeAccount_idempotent_soft_delete (db : DB) (u a : Nat) (acc : Account)
    (h : db.find? (ownedBy u a) = some acc) :
    (delete_account db u a false).result = .ok () ∧
    (delete_account db u a false).db.map (fun x => (x.id, x.user_id)) =
      db.map (fun x => (x.id, x.user_id)) ∧
    delete_account (delete_account db u a false).db u a false =
      ⟨.ok (), (delete_account db u a false).db, [.commit]⟩ ∧
    get_account_by_id (delete_account db u a false).db u a =
      .ok { acc with status := "closed" } ∧
    ({ acc with status := "closed" } : Account).status = "closed" := by
  have hp : ownedBy u a acc = true := List.find?_some h
  have hpC : ownedBy u a { acc with status := "closed" } = true := hp
  have hdel : delete_account db u a false =
      ⟨.ok (), replaceFirst db (ownedBy u a) { acc with status := "closed" }, [.commit]⟩ := by
    simp [delete_account, h]
  have hfind' : (replaceFirst db (ownedBy u a) { acc with status := "closed" }).find?
      (ownedBy u a) = some { acc with status := "closed" } :=
    find?_replaceFirst (ownedBy u a) { acc with status := "closed" } acc hpC db h
  refine ⟨by rw [hdel], ?_, ?_, ?_, rfl⟩
  · rw [hdel]
    exact map_replaceFirst _ (ownedBy u a) { acc with status := "closed" } acc db h rfl
  · rw [hdel]
    simp only [delete_account, hfind']
    rw [replaceFirst_replaceFirst (ownedBy u a) { acc with status := "closed" } hpC db]
    rfl
  · rw [hdel]
    simp [get_account_by_id, hfind']

/-- Witness for C5: closing account 1 of user 1 twice keeps the row and
leaves it closed. -/
theorem closeAccount_idempotent_soft_delete_witness :
    (delete_account [⟨1, 1, "checking", 2500, none, "active"⟩] 1 1 false).result = .ok () ∧
    (delete_account [⟨1, 1, "checking", 2500, none, "active"⟩] 1 1 false).db.map
        (fun x => (x.id, x.user_id)) =
      [(⟨1, 1, "checking", 2500, none, "active"⟩ : Account)].map (fun x => (x.id, x.user_id)) ∧
    delete_account
        (delete_account [⟨1, 1, "checking", 2500, none, "active"⟩] 1 1 false).db 1 1 false =
      ⟨.ok (), (delete_account [⟨1, 1, "checking", 2500, none, "active"⟩] 1 1 false).db,
        [.commit]⟩ ∧
    get_account_by_id
        (delete_account [⟨1, 1, "checking", 2500, none, "active"⟩] 1 1 false).db 1 1 =
      .ok ⟨1, 1, "checking", 2500, none, "closed"⟩ ∧
    (⟨1, 1, "checking", 2500, none, "closed"⟩ : Account).status = "closed" :=
  closeAccount_idempotent_soft_delete [⟨1, 1, "checking", 2500, none, "active"⟩] 1 1
    ⟨1, 1, "checking", 2500, none, "active"⟩ (by decide)

theorem update_account_ok_shape (db : DB) (u a : Nat) (data : AccountUpdate) (sf : Bool)
    (acc' : Account) (h' : (update_account db u a data sf).result = .ok acc') :
    ∃ acc, db.find? (ownedBy u a) = some acc ∧
      acc'.id = acc.id ∧ acc'.user_id = acc.user_id ∧
      acc'.account_type = acc.account_type ∧ acc'.balance = acc.balance ∧
      acc'.nickname = (match data.nickname with | some n => some n | none => acc.nickname) ∧
      acc'.status = (match data.status with | some s => s | none => acc.status) := by
  rcases hf : db.find? (ownedBy u a) with _ | acc
  · simp [update_account, hf] at h'
  · refine ⟨acc, rfl, ?_⟩
    rcases data with ⟨dn, ds⟩
    cases dn <;> cases ds <;> cases sf <;> simp only [update_account, hf] at h'
    all_goals try split at h'
    all_goals try (cases h')
    all_goals simp_all

/-- C9: updateAccount modifies only the supplied fields: a nickname-only
update leaves status and balance unchanged, a status-only update leaves
the nickname unchanged, an update supplying neither field succeeds and
persists nothing (the store is returned unchanged), and no updateAccount
call of any shape changes any balance, neither in the returned entity nor
in any stored row. -/
theorem updateAccount_frame (db : DB) (u a : Nat) (acc : Account)
    (h : db.find? (ownedBy u a) = some acc) :
    (∀ n, update_account db u a ⟨some n, none⟩ false =
      ⟨.ok { acc with nickname := some n },
        replaceFirst db (ownedBy u a) { acc with nickname := some n },
        [.commit, .refresh]⟩) ∧
    (∀ s, (s = "active" ∨ s = "frozen" ∨ s = "closed") →
      update_account db u a ⟨none, some s⟩ false =
        ⟨.ok { acc with status := s },
          replaceFirst db (ownedBy u a) { acc with status := s },
          [.commit, .refresh]⟩) ∧
    update_account db u a ⟨none, none⟩ false = ⟨.ok acc, db, [.commit, .refresh]⟩ ∧
    (∀ data sf acc', (update_account db u a data sf).result = .ok acc' →
      acc'.balance = acc.balance) ∧
    (∀ data sf, (update_account db u a data sf).db.map Account.balance =
      db.map Account.balance) := by
  refine ⟨?_, ?_, ?_, ?_, ?_⟩
  · intro n; simp [update_account, h]
  · intro s hs
    rcases hs with hs | hs | hs <;> subst hs <;> simp [update_account, h]
  · simp [update_account, h, replaceFirst_self (ownedBy u a) acc db h]
  · intro data sf acc' h'
    obtain ⟨acc2, hf2, _, _, _, hbal, _, _⟩ := update_account_ok_shape db u a data sf acc' h'
    have he : acc2 = acc := Option.some.inj (hf2.symm.trans h)
    rw [he] at hbal
    exact hbal
  · intro data sf
    rcases data with ⟨dn, ds⟩
    cases dn <;> cases ds <;> cases sf <;> simp only [update_account, h]
    all_goals try split
    all_goals try rfl
    all_goals exact map_replaceFirst Account.balance (ownedBy u a) _ acc db h rfl

/-- Witness for C9: a no-op update on a concrete account returns the
unchanged entity and store, and a nickname-and-status update leaves all
stored balances intact. -/
theorem updateAccount_frame_witness :
    update_account [⟨1, 1, "checking", 2500, some "Main", "active"⟩] 1 1 ⟨none, none⟩ false =
      ⟨.ok ⟨1, 1, "checking", 2500, some "Main", "active"⟩,
        [⟨1, 1, "checking", 2500, some "Main", "active"⟩], [.commit, .refresh]⟩ ∧
    (update_account [⟨1, 1, "checking", 2500, some "Main", "active"⟩] 1 1
        ⟨some "x", some "frozen"⟩ false).db.map Account.balance =
      [(⟨1, 1, "checking", 2500, some "Main", "active"⟩ : Account)].map Account.balance :=
  ⟨(updateAccount_frame [⟨1, 1, "checking", 2500, some "Main", "active"⟩] 1 1
      ⟨1, 1, "checking", 2500, some "Main", "active"⟩ (by decide)).2.2.1,
   (updateAccount_frame [⟨1, 1, "checking", 2500, some "Main", "active"⟩] 1 1
      ⟨1, 1, "checking", 2500, some "Main", "active"⟩
      (by decide)).2.2.2.2 ⟨some "x", some "frozen"⟩ false⟩

/-- C10: supplying nickname null is the same input as omitting it (both
arrive as None), so the stored nickname is retained; an account whose
nickname is set can never have it reset to null by any update, only
overwritten with another string, including the empty string. -/
theorem updateAccount_nickname_null (db : DB) (u a : Nat) (acc : Account)
    (h : db.find? (ownedBy u a) = some acc) :
    (∀ ds sf acc', (update_account db u a ⟨none, ds⟩ sf).result = .ok acc' →
      acc'.nickname = acc.nickname) ∧
    (acc.nickname.isSome → ∀ data sf acc',
      (update_account db u a data sf).result = .ok acc' → acc'.nickname.isSome) ∧
    (∀ n, (update_account db u a ⟨some n, none⟩ false).result =
      .ok { acc with nickname := some n }) ∧
    (update_account db u a ⟨some "", none⟩ false).result =
      .ok { acc with nickname := some "" } := by
  refine ⟨?_, ?_, ?_, ?_⟩
  · intro ds sf acc' h'
    obtain ⟨acc2, hf2, _, _, _, _, hnick, _⟩ :=
      update_account_ok_shape db u a ⟨none, ds⟩ sf acc' h'
    have he : acc2 = acc := Option.some.inj (hf2.symm.trans h)
    rw [he] at hnick
    exact hnick
  · intro hsome data sf acc' h'
    obtain ⟨acc2, hf2, _, _, _, _, hnick, _⟩ :=
      update_account_ok_shape db u a data sf acc' h'
    have he : acc2 = acc := Option.some.inj (hf2.symm.trans h)
    subst he
    rw [hnick]
    rcases hd : data.nickname with _ | n <;> simp [hd, hsome]
  · intro n; simp [update_account, h]
  · simp [update_account, h]

/-- Witness for C10: on an account nicknamed Main, an update carrying a
nickname keeps the nickname present, and the empty string is a legal
overwrite. -/
theorem updateAccount_nickname_null_witness :
    (⟨1, 1, "checking", 2500, some "", "frozen"⟩ : Account).nickname.isSome ∧
    (update_account [⟨1, 1, "checking", 2500, some "Main", "active"⟩] 1 1
        ⟨some "", none⟩ false).result =
      .ok ⟨1, 1, "checking", 2500, some "", "active"⟩ :=
  ⟨(updateAccount_nickname_null [⟨1, 1, "checking", 2500, some "Main", "active"⟩] 1 1
      ⟨1, 1, "checking", 2500, some "Main", "active"⟩ (by decide)).2.1 (by decide)
      ⟨some "", some "frozen"⟩ false ⟨1, 1, "checking", 2500, some "", "frozen"⟩ (by decide),
   (updateAccount_nickname_null [⟨1, 1, "checking", 2500, some "Main", "active"⟩] 1 1
      ⟨1, 1, "checking", 2500, some "Main", "active"⟩ (by decide)).2.2.2⟩

theorem update_account_db_cases (db : DB) (u a : Nat) (data : AccountUpdate) (sf : Bool) :
    (update_account db u a data sf).db = db ∨
    ∃ acc b, db.find? (ownedBy u a) = some acc ∧
      (update_account db u a data sf).db = replaceFirst db (ownedBy u a) b ∧
      b.id = acc.id ∧
      b.status = (match data.status with | some s => s | none => acc.status) := by
  rcases hf : db.find? (ownedBy u a) with _ | acc
  · left; simp [update_account, hf]
  · rcases data with ⟨dn, ds⟩
    cases dn <;> cases ds <;> cases sf <;> simp only [update_account, hf]
    all_goals try (left; rfl)
    all_goals try (right; exact ⟨acc, _, rfl, rfl, rfl, rfl⟩)
    all_goals split <;> first
      | (left; rfl)
      | (right; exact ⟨acc, _, rfl, rfl, rfl, rfl⟩)

/-- C8 counterexample: updateAccount, a caller-facing operation other
than closeAccount, transitions a concrete active account to closed when
passed status closed. -/
theorem updateAccount_sets_closed_counterexample :
    [(⟨1, 1, "checking", 2500, none, "active"⟩ : Account)].map Account.status = ["active"] ∧
    (update_account [⟨1, 1, "checking", 2500, none, "active"⟩] 1 1
        ⟨none, some "closed"⟩ false).result =
      .ok ⟨1, 1, "checking", 2500, none, "closed"⟩ ∧
    (update_account [⟨1, 1, "checking", 2500, none, "active"⟩] 1 1
        ⟨none, some "closed"⟩ false).db.map Account.status = ["closed"] := by
  decide

/-- C8 amended: closeAccount and updateAccount with an explicit status of
closed are the only paths to the closed status: createAccount only ever
adds rows with status active, and an updateAccount call whose status
field is not closed leaves a row closed only if a row with that id was
already closed. -/
theorem statusClosed_only_via_close_or_update (db : DB) :
    (∀ u (data : AccountCreate) newId sf acc',
      acc' ∈ (create_account db u data newId sf).db →
      acc' ∈ db ∨ acc'.status = "active") ∧
    (∀ u a (data : AccountUpdate) sf acc',
      data.status ≠ some "closed" →
      acc' ∈ (update_account db u a data sf).db →
      acc'.status = "closed" →
      ∃ acc, acc ∈ db ∧ acc.id = acc'.id ∧ acc.status = "closed") := by
  constructor
  · intro u data newId sf acc' hmem
    rcases hM : MINIMUM_DEPOSITS (pyLower data.account_type) with _ | m
    · left; simpa [create_account, hM] using hmem
    · by_cases hd : data.initial_deposit < m
      · left; simpa [create_account, hM, hd] using hmem
      · cases sf
        · simp [create_account, hM, hd] at hmem
          rcases hmem with hmem | hmem
          · left; exact hmem
          · right; rw [hmem]
        · left; simpa [create_account, hM, hd] using hmem
  · intro u a data sf acc' hds hmem hclosed
    rcases update_account_db_cases db u a data sf with hdb | ⟨acc, b, hf, hdb, hid, hst⟩
    · rw [hdb] at hmem
      exact ⟨acc', hmem, rfl, hclosed⟩
    · rw [hdb] at hmem
      rcases mem_replaceFirst (ownedBy u a) b acc' db hmem with h1 | h1
      · exact ⟨acc', h1, rfl, hclosed⟩
      · subst h1
        rcases hd2 : data.status with _ | s
        · rw [hd2] at hst
          exact ⟨acc, List.mem_of_find?_eq_some hf, hid.symm, hst.symm.trans hclosed⟩
        · rw [hd2] at hst hds
          exact absurd (congrArg some (hst.symm.trans hclosed)) hds

/-- Witness for the amended C8: a fresh creation yields an active row,
and after a nickname-only update the only closed row is one that was
closed before the call. -/
theorem statusClosed_only_via_close_or_update_witness :
    ((⟨1, 1, "checking", 2500, none, "active"⟩ : Account) ∈ ([] : DB) ∨
      (⟨1, 1, "checking", 2500, none, "active"⟩ : Account).status = "active") ∧
    (∃ acc, acc ∈ [(⟨1, 1, "checking", 2500, none, "closed"⟩ : Account)] ∧
      acc.id = (⟨1, 1, "checking", 2500, some "n", "closed"⟩ : Account).id ∧
      acc.status = "closed") :=
  ⟨(statusClosed_only_via_close_or_update []).1 1 ⟨"checking", none, 2500⟩ 1 false
      ⟨1, 1, "checking", 2500, none, "active"⟩ (by decide),
   (statusClosed_only_via_close_or_update [⟨1, 1, "checking", 2500, none, "closed"⟩]).2
      1 1 ⟨some "n", none⟩ false ⟨1, 1, "checking", 2500, some "n", "closed"⟩
      (by decide) (by decide) (by decide)⟩

/-- C6 counterexample: a store-level integrity error during
updateAccount's write is propagated as the raw store error with no
rollback ever issued, contradicting the claim that every mutating
operation rolls back and maps the error kind. -/
theorem updateAccount_raw_store_error_counterexample :
    (update_account [⟨1, 1, "checking", 2500, none, "active"⟩] 1 1
        ⟨some "Vacation", none⟩ true).result = .error .integrityError ∧
    SessionOp.rollback ∉
      (update_account [⟨1, 1, "checking", 2500, none, "active"⟩] 1 1
        ⟨some "Vacation", none⟩ true).trace := by
  decide

/-- C6 amended: only createAccount wraps its write: an integrity
violation at its commit is rolled back before the ConflictError
(HTTP 400, Account could not be created.) is raised and the store is
unchanged; updateAccount and closeAccount propagate the raw store error
from a failing commit without any service-level rollback, the committed
store again unchanged. -/
theorem storeError_handling (db : DB) (u : Nat) :
    (∀ (data : AccountCreate) newId m,
      MINIMUM_DEPOSITS (pyLower data.account_type) = some m →
      ¬ data.initial_deposit < m →
      create_account db u data newId true =
        ⟨.error (.httpException 400 "Account could not be created."), db,
          [.add, .commit, .rollback]⟩) ∧
    (∀ a (dn : Option String) acc, db.find? (ownedBy u a) = some acc →
      update_account db u a ⟨dn, none⟩ true = ⟨.error .integrityError, db, [.commit]⟩) ∧
    (∀ a acc, db.find? (ownedBy u a) = some acc →
      delete_account db u a true = ⟨.error .integrityError, db, [.commit]⟩) := by
  refine ⟨?_, ?_, ?_⟩
  · intro data newId m hM hd
    simp [create_account, hM, hd]
  · intro a dn acc h
    cases dn <;> simp [update_account, h]
  · intro a acc h
    simp [delete_account, h]

/-- Witness for the amended C6: concrete failing commits on all three
mutating operations. -/
theorem storeError_handling_witness :
    create_account [] 1 ⟨"checking", none, 2500⟩ 5 true =
      ⟨.error (.httpException 400 "Account could not be created."), [],
        [.add, .commit, .rollback]⟩ ∧
    update_account [⟨1, 1, "checking", 2500, none, "active"⟩] 1 1 ⟨none, none⟩ true =
      ⟨.error .integrityError, [⟨1, 1, "checking", 2500, none, "active"⟩], [.commit]⟩ ∧
    delete_account [⟨1, 1, "checking", 2500, none, "active"⟩] 1 1 true =
      ⟨.error .integrityError, [⟨1, 1, "checking", 2500, none, "active"⟩], [.commit]⟩ :=
  ⟨(storeError_handling [] 1).1 ⟨"checking", none, 2500⟩ 5 2500 (by decide) (by decide),
   (storeError_handling [⟨1, 1, "checking", 2500, none, "active"⟩] 1).2.1 1 none
      ⟨1, 1, "checking", 2500, none, "active"⟩ (by decide),
   (storeError_handling [⟨1, 1, "checking", 2500, none, "active"⟩] 1).2.2 1
      ⟨1, 1, "checking", 2500, none, "active"⟩ (by decide)⟩
